import Mathlib

set_option autoImplicit false

/-!
Shallow embedding of the authentication core of the Re-Peng-Blog-Service
repository (`src/modules/auth/auth.service.ts`), together with the external
collaborators it drives: a symbolic JWT service and a key-value cache store.

Modelling conventions:
* JWTs are symbolic: a signed token is a record of its payload, the secret it
  was signed with, and the absolute expiry instant.  Verification compares the
  secret and the clock, exactly the two checks `jsonwebtoken` performs that
  the spec talks about.  A token is expired at instants `≥ exp`.
* The cache store state is an association list from keys to entries; each
  entry remembers the value and the TTL it was written with.
* Network failures of the cache store are injected through an explicit
  `Option CacheError` argument on the fallible operations (`none` = the
  operation succeeds, `some e` = the underlying client raises `e`).
* JavaScript truthiness of the optional session fields is modelled explicitly
  (`none`, the empty string and the number 0 are falsy).
* `Date.now()` is passed in as an explicit `now : Nat` argument.
-/

namespace RePengBlog

/-- The error codes of `ApiResponseCodeEnum` used by the auth service. -/
inductive ApiResponseCodeEnum where
  | UNAUTHORIZED_ACCESS_TOKEN
  | UNAUTHORIZED_REFRESH_TOKEN
  | UNAUTHORIZED_NOTFOUND_SESSION
  | UNAUTHORIZED_CAPTCHA_EXPIRE
  | UNAUTHORIZED_CAPTCHA_ERROR
  | INTERNALSERVERERROR_REDIS
deriving DecidableEq, Repr

/-- A JWT payload: `sub` is the user id; access tokens additionally carry a
`userName`, refresh tokens do not. -/
structure JwtPayload where
  sub : Nat
  userName : Option String
deriving DecidableEq, Repr

/-- A symbolic signed JWT: the payload, the secret it was signed with and the
absolute expiry instant (issue time + expiresIn). -/
structure SignedToken where
  payload : JwtPayload
  secret : String
  exp : Nat
deriving DecidableEq, Repr

/-- The two ways `jsonwebtoken`'s verify rejects a token in this model. -/
inductive JwtError where
  | invalidSignature
  | expired
deriving DecidableEq, Repr

/-- `jwtService.signAsync`: produce a token over `payload` signed with
`secret`, expiring `expiresIn` after `now`. -/
def jwtSign (secret : String) (expiresIn : Nat) (payload : JwtPayload) (now : Nat) :
    SignedToken :=
  ⟨payload, secret, now + expiresIn⟩

/-- `jwtService.verifyAsync`: check the signature (secret) first, then expiry;
on success return the payload. -/
def jwtVerify (token : SignedToken) (secret : String) (now : Nat) :
    Except JwtError JwtPayload :=
  if token.secret ≠ secret then .error .invalidSignature
  else if token.exp ≤ now then .error .expired
  else .ok token.payload

/-- The configuration values the auth service reads (spec section 6). -/
structure Config where
  JWT_ACCESS_TOKEN_SECRET : String
  JWT_REFRESH_TOKEN_SECRET : String
  JWT_ACCESS_TOKEN_EXPIRES_IN : Nat
  JWT_REFRESH_TOKEN_EXPIRES_IN : Nat
deriving DecidableEq, Repr

/-- Modelled from the spec: the `JwtModule` registration (auth.module.ts)
that configures `JwtService`'s default signing options is not under `src/`;
per the spec, `issueAccessToken` "produces a signed token with payload
\x7bsub: userId, userName\x7d, signed with a configured access-token secret,
default expiry from configuration", so the service default secret is
`JWT_ACCESS_TOKEN_SECRET`. -/
def jwtServiceDefaultSecret (cfg : Config) : String :=
  cfg.JWT_ACCESS_TOKEN_SECRET

/-- Modelled from the spec: companion to `jwtServiceDefaultSecret`; the
default expiry of the `JwtService` registration is the configured
access-token expiry `JWT_ACCESS_TOKEN_EXPIRES_IN`. -/
def jwtServiceDefaultExpiresIn (cfg : Config) : Nat :=
  cfg.JWT_ACCESS_TOKEN_EXPIRES_IN

/-- An infrastructure failure of the cache store client, carrying an
arbitrary reason (store unreachable, timeout, ...). -/
inductive CacheError where
  | err (reason : String)
deriving DecidableEq, Repr

/-- One cache entry: the stored token and the TTL it was written with. -/
structure CacheEntry where
  value : SignedToken
  ttl : Nat
deriving DecidableEq, Repr

/-- The cache store state: an association list from keys to entries, newest
binding first; at most one live binding per key. -/
abbrev RedisState := List (String × CacheEntry)

namespace RedisService

/-- `RedisService.setCache(key, value, ttl)`: write `value` under `key` with
time-to-live `ttl`, overwriting any prior binding; the client may instead
raise a `CacheError` (injected through `fail`). -/
def setCache (st : RedisState) (key : String) (value : SignedToken) (ttl : Nat)
    (fail : Option CacheError) : Except CacheError RedisState :=
  match fail with
  | some e => .error e
  | none => .ok ((key, ⟨value, ttl⟩) :: st.filter (fun p => p.1 ≠ key))

/-- `RedisService.getCache(key)`: the current value under `key`, if any. -/
def getCache (st : RedisState) (key : String) : Option SignedToken :=
  (st.find? (fun p => p.1 = key)).map (fun p => p.2.value)

/-- `RedisService.getTTL(key)`: the TTL recorded for `key`, if bound. -/
def getTTL (st : RedisState) (key : String) : Option Nat :=
  (st.find? (fun p => p.1 = key)).map (fun p => p.2.ttl)

/-- The raw client delete: removes every binding of `key` and reports the
number of deleted keys; the client may instead raise (injected via `fail`). -/
def del (st : RedisState) (key : String) (fail : Option CacheError) :
    Except CacheError (RedisState × Nat) :=
  match fail with
  | some e => .error e
  | none =>
    .ok (st.filter (fun p => p.1 ≠ key), (st.filter (fun p => p.1 = key)).length)

/-- Modelled from the spec: `RedisService.clearCatch` (the redis service file
`src/shared/redis/redis.service.ts`) is not under `src/`.  Per the spec the
cache-store contract is `clearCache(key) -> deletedCount|ack` and logout
"does not fail the caller-visible flow if revoke fails (best-effort)", so the
delete absorbs an underlying client failure and returns an ack (count 0,
state unchanged) instead of raising. -/
def clearCatch (st : RedisState) (key : String) (fail : Option CacheError) :
    RedisState × Nat :=
  match del st key fail with
  | .error _ => (st, 0)
  | .ok r => r

end RedisService

/-- The exceptions thrown by the auth service: `UnauthorizedException` bodies
carry an optional wrapped jwt error, a code and a message;
`InternalServerErrorException` bodies carry a code and the wrapped cache
failure. -/
inductive HttpException where
  | unauthorized (e : Option JwtError) (code : ApiResponseCodeEnum) (msg : String)
  | internalServerError (code : ApiResponseCodeEnum) (e : CacheError)
deriving DecidableEq, Repr

/-- `express-session`'s `SessionInfo` as used by `verifyCaptcha`: both fields
may be absent. -/
structure SessionInfo where
  captcha : Option String
  expirationTimestamp : Option Nat
deriving DecidableEq, Repr

/-- JavaScript truthiness of an optional string: absent and `""` are falsy. -/
def truthyStr : Option String → Bool
  | none => false
  | some s => s != ""

/-- JavaScript truthiness of an optional number: absent and `0` are falsy. -/
def truthyNat : Option Nat → Bool
  | none => false
  | some n => n != 0

/-- `String.prototype.toLocaleLowerCase`, modelled as ASCII lowercasing (the
spec: comparison is "ASCII/locale-lowercased on both sides ... no other
normalization"). -/
def toLocaleLowerCase (s : String) : String :=
  ⟨s.data.map Char.toLower⟩

/-- The `UserLogoutDto` body: the id and userName of the user logging out. -/
structure UserLogoutDto where
  id : Nat
  userName : String
deriving DecidableEq, Repr

namespace AuthService

/-- `AuthService.generateAccessToken(id, userName)`: sign
`\x7bsub: id, userName\x7d` with the `JwtService` default options. -/
def generateAccessToken (cfg : Config) (now : Nat) (id : Nat) (userName : String) :
    SignedToken :=
  jwtSign (jwtServiceDefaultSecret cfg) (jwtServiceDefaultExpiresIn cfg)
    ⟨id, some userName⟩ now

/-- `AuthService.verifyAccessToken(token)`: verify against
`JWT_ACCESS_TOKEN_SECRET`; any jwt failure is wrapped into an
`UnauthorizedException` with code `UNAUTHORIZED_ACCESS_TOKEN`. -/
def verifyAccessToken (cfg : Config) (now : Nat) (token : SignedToken) :
    Except HttpException JwtPayload :=
  match jwtVerify token cfg.JWT_ACCESS_TOKEN_SECRET now with
  | .ok p => .ok p
  | .error e =>
    .error (.unauthorized (some e) .UNAUTHORIZED_ACCESS_TOKEN "身份认证信息失效，请重新认证！")

/-- `AuthService.generateRefreshToken(id)`: sign `\x7bsub: id\x7d` with the
refresh secret and refresh expiry. -/
def generateRefreshToken (cfg : Config) (now : Nat) (id : Nat) : SignedToken :=
  jwtSign cfg.JWT_REFRESH_TOKEN_SECRET cfg.JWT_REFRESH_TOKEN_EXPIRES_IN
    ⟨id, none⟩ now

/-- `AuthService.verifyRefresToken(token)`: verify against
`JWT_REFRESH_TOKEN_SECRET`; any jwt failure is wrapped into an
`UnauthorizedException` with code `UNAUTHORIZED_REFRESH_TOKEN`. -/
def verifyRefresToken (cfg : Config) (now : Nat) (token : SignedToken) :
    Except HttpException JwtPayload :=
  match jwtVerify token cfg.JWT_REFRESH_TOKEN_SECRET now with
  | .ok p => .ok p
  | .error e =>
    .error (.unauthorized (some e) .UNAUTHORIZED_REFRESH_TOKEN "登录信息已过期，请重新登录！")

/-- `AuthService.redisTokenKeyStr(id, userName)`. -/
def redisTokenKeyStr (id : Nat) (userName : String) : String :=
  s!"user_token:{id}-{userName}"

/-- `AuthService.setTokenToRedis(key, token)`: store `token` under `key` with
TTL `JWT_ACCESS_TOKEN_EXPIRES_IN`. -/
def setTokenToRedis (cfg : Config) (st : RedisState) (key : String)
    (token : SignedToken) (fail : Option CacheError) :
    Except CacheError RedisState :=
  RedisService.setCache st key token cfg.JWT_ACCESS_TOKEN_EXPIRES_IN fail

/-- `AuthService.getRedisToken(id, userName)`: read the cached token for the
pair. -/
def getRedisToken (st : RedisState) (id : Nat) (userName : String) :
    Option SignedToken :=
  RedisService.getCache st (redisTokenKeyStr id userName)

/-- `AuthService.verifyCaptcha(captcha, session)`: reject when the session
carries no (truthy) captcha, then when the expiry stamp is falsy or in the
past, then when the lowercased answers differ; otherwise succeed. -/
def verifyCaptcha (now : Nat) (captcha : String) (session : SessionInfo) :
    Except HttpException Unit :=
  if truthyStr session.captcha = false then
    .error (.unauthorized none .UNAUTHORIZED_NOTFOUND_SESSION
      "无法获取到Session信息!请确保请求携带cookie")
  else if truthyNat session.expirationTimestamp = false
      || decide (session.expirationTimestamp.getD 0 < now) then
    .error (.unauthorized none .UNAUTHORIZED_CAPTCHA_EXPIRE "验证码已过期!")
  else if toLocaleLowerCase captcha ≠ toLocaleLowerCase (session.captcha.getD "") then
    .error (.unauthorized none .UNAUTHORIZED_CAPTCHA_ERROR "验证码输入有误!")
  else
    .ok ()

/-- `AuthService.refreshAccessToken(id, userName)`: generate a fresh access
token, write it to the cache under `redisTokenKeyStr(id, userName)` and
return it; a failure inside the `try` is wrapped into an
`InternalServerErrorException` with code `INTERNALSERVERERROR_REDIS`. -/
def refreshAccessToken (cfg : Config) (st : RedisState) (now : Nat) (id : Nat)
    (userName : String) (fail : Option CacheError) :
    Except HttpException (SignedToken × RedisState) :=
  let token := generateAccessToken cfg now id userName
  match setTokenToRedis cfg st (redisTokenKeyStr id userName) token fail with
  | .ok stNew => .ok (token, stNew)
  | .error e => .error (.internalServerError .INTERNALSERVERERROR_REDIS e)

/-- `AuthService.getTokenTTL(key)`. -/
def getTokenTTL (st : RedisState) (key : String) : Option Nat :=
  RedisService.getTTL st key

/-- `AuthService.clearUserToken(data)`: delete the cached token for
`(data.id, data.userName)` via `redis.clearCatch` and log the result; the
method itself has no try/catch, so it fails only if `clearCatch` raises
(which, per its contract, it never does). -/
def clearUserToken (st : RedisState) (data : UserLogoutDto)
    (fail : Option CacheError) : Except HttpException (RedisState × Nat) :=
  let key := redisTokenKeyStr data.id data.userName
  let r := RedisService.clearCatch st key fail
  .ok r

end AuthService

/-- Reference decimal printer used to reason about `Nat.repr`: most
significant digit first. -/
def natDigits (n : Nat) : List Char :=
  if _h : n < 10 then [Nat.digitChar n]
  else natDigits (n / 10) ++ [Nat.digitChar (n % 10)]
decreasing_by exact Nat.div_lt_self (by omega) (by omega)

/-- Numeric value of a most-significant-first digit string. -/
def digitsVal (l : List Char) : Nat :=
  l.foldl (fun a c => a * 10 + (c.toNat - '0'.toNat)) 0

/-! ## Helper lemmas -/

theorem jwtVerify_ok (t : SignedToken) (secret : String) (now : Nat)
    (hs : t.secret = secret) (he : now < t.exp) :
    jwtVerify t secret now = .ok t.payload := by
  unfold jwtVerify
  rw [if_neg (by simp [hs]), if_neg (by omega)]

theorem jwtVerify_badSecret (t : SignedToken) (secret : String) (now : Nat)
    (hs : t.secret ≠ secret) : jwtVerify t secret now = .error .invalidSignature := by
  unfold jwtVerify
  rw [if_pos hs]

theorem getCache_after_del (st : RedisState) (key : String) :
    RedisService.getCache (st.filter (fun p => p.1 ≠ key)) key = none := by
  simp [RedisService.getCache, List.find?_eq_none, List.mem_filter]

theorem digitsVal_append (l : List Char) (c : Char) :
    digitsVal (l ++ [c]) = digitsVal l * 10 + (c.toNat - '0'.toNat) := by
  simp [digitsVal, List.foldl_append]

theorem digitChar_toNat (m : Nat) (h : m < 10) :
    (Nat.digitChar m).toNat - '0'.toNat = m := by
  interval_cases m <;> decide

theorem digitsVal_natDigits (n : Nat) : digitsVal (natDigits n) = n := by
  induction n using Nat.strong_induction_on with
  | _ n ih =>
    rw [natDigits]
    by_cases h : n < 10
    · rw [dif_pos h]
      show 0 * 10 + ((Nat.digitChar n).toNat - '0'.toNat) = n
      rw [digitChar_toNat n h]
      omega
    · rw [dif_neg h, digitsVal_append,
        ih (n / 10) (Nat.div_lt_self (by omega) (by omega)),
        digitChar_toNat _ (Nat.mod_lt _ (by omega))]
      omega

theorem natDigits_injective (a b : Nat) (h : natDigits a = natDigits b) : a = b := by
  have hv := congrArg digitsVal h
  rwa [digitsVal_natDigits, digitsVal_natDigits] at hv

theorem digitChar_ne_hyphen (m : Nat) (h : m < 10) : Nat.digitChar m ≠ '-' := by
  interval_cases m <;> decide

theorem natDigits_no_hyphen (n : Nat) : '-' ∉ natDigits n := by
  induction n using Nat.strong_induction_on with
  | _ n ih =>
    rw [natDigits]
    by_cases h : n < 10
    · rw [dif_pos h]
      intro hmem
      exact digitChar_ne_hyphen n h (List.mem_singleton.mp hmem).symm
    · rw [dif_neg h]
      intro hmem
      rcases List.mem_append.mp hmem with h1 | h2
      · exact ih (n / 10) (Nat.div_lt_self (by omega) (by omega)) h1
      · exact digitChar_ne_hyphen _ (Nat.mod_lt _ (by omega)) (List.mem_singleton.mp h2).symm

theorem toDigitsCore_eq (fuel : Nat) : ∀ (n : Nat) (acc : List Char), n < fuel →
    Nat.toDigitsCore 10 fuel n acc = natDigits n ++ acc := by
  induction fuel with
  | zero => intro n acc h; omega
  | succ fuel ih =>
    intro n acc h
    unfold Nat.toDigitsCore
    by_cases h10 : n / 10 = 0
    · have hn : n < 10 := by omega
      rw [if_pos h10, natDigits, dif_pos hn, Nat.mod_eq_of_lt hn]
      rfl
    · rw [if_neg h10, ih (n / 10) _ (by omega)]
      conv_rhs => rw [natDigits]
      rw [dif_neg (by omega : ¬ n < 10)]
      simp [List.append_assoc]

theorem natRepr_eq_natDigits (n : Nat) : Nat.repr n = (natDigits n).asString := by
  unfold Nat.repr Nat.toDigits
  rw [toDigitsCore_eq (n + 1) n [] (Nat.lt_succ_self n)]
  simp

theorem sep_split (sep : Char) : ∀ (l1 l2 m1 m2 : List Char), sep ∉ l1 → sep ∉ l2 →
    l1 ++ sep :: m1 = l2 ++ sep :: m2 → l1 = l2 ∧ m1 = m2 := by
  intro l1
  induction l1 with
  | nil =>
    intro l2 m1 m2 _ h2 heq
    cases l2 with
    | nil => simpa using heq
    | cons b bs =>
      simp only [List.nil_append, List.cons_append, List.cons.injEq] at heq
      exact absurd (heq.1 ▸ List.mem_cons_self b bs) h2
  | cons a as ih =>
    intro l2 m1 m2 h1 h2 heq
    cases l2 with
    | nil =>
      simp only [List.nil_append, List.cons_append, List.cons.injEq] at heq
      exact absurd (heq.1 ▸ List.mem_cons_self a as) h1
    | cons b bs =>
      simp only [List.cons_append, List.cons.injEq] at heq
      obtain ⟨hab, htail⟩ := heq
      have h1' : sep ∉ as := fun hx => h1 (List.mem_cons_of_mem a hx)
      have h2' : sep ∉ bs := fun hx => h2 (List.mem_cons_of_mem b hx)
      obtain ⟨hl, hm⟩ := ih bs m1 m2 h1' h2' htail
      exact ⟨by rw [hab, hl], hm⟩

theorem string_data_append (s t : String) : (s ++ t).data = s.data ++ t.data := rfl

theorem redisTokenKeyStr_normal (id : Nat) (userName : String) :
    AuthService.redisTokenKeyStr id userName =
      "user_token:" ++ toString id ++ "-" ++ userName := by
  unfold AuthService.redisTokenKeyStr
  show "user_token:" ++ toString id ++ "-" ++ userName ++ "" =
    "user_token:" ++ toString id ++ "-" ++ userName
  simp [String.append_empty]

theorem toString_nat_data (n : Nat) : (toString n).data = natDigits n := by
  show (Nat.repr n).data = natDigits n
  rw [natRepr_eq_natDigits]
  rfl

/-! ## Claims -/

/-- Claim C1: round-trip of the access-token pair.  For every configuration,
user id and userName, `generateAccessToken` produces a token signed with the
configured access-token secret carrying payload `\x7bsub: id, userName\x7d`,
and `verifyAccessToken` applied to that token before its expiry returns the
payload with `sub = id` and the issued `userName`. -/
theorem accessToken_roundtrip (cfg : Config) (id : Nat) (userName : String)
    (t0 now : Nat)
    (h : now < (AuthService.generateAccessToken cfg t0 id userName).exp) :
    (AuthService.generateAccessToken cfg t0 id userName).secret =
      cfg.JWT_ACCESS_TOKEN_SECRET ∧
    (AuthService.generateAccessToken cfg t0 id userName).payload =
      ⟨id, some userName⟩ ∧
    AuthService.verifyAccessToken cfg now
        (AuthService.generateAccessToken cfg t0 id userName) =
      .ok ⟨id, some userName⟩ := by
  refine ⟨rfl, rfl, ?_⟩
  unfold AuthService.verifyAccessToken
  rw [jwtVerify_ok _ cfg.JWT_ACCESS_TOKEN_SECRET now rfl h]
  rfl

/-- Witness for C1 at a concrete configuration and clock. -/
theorem accessToken_roundtrip_witness :
    AuthService.verifyAccessToken ⟨"as", "rs", 100, 200⟩ 5
        (AuthService.generateAccessToken ⟨"as", "rs", 100, 200⟩ 0 1 "tom") =
      .ok ⟨1, some "tom"⟩ :=
  (accessToken_roundtrip ⟨"as", "rs", 100, 200⟩ 1 "tom" 0 5 (by decide)).2.2

/-- Claim C2: `verifyCaptcha` succeeds exactly when the session carries a
non-empty captcha, a present expiry stamp not in the past, and the lowercased
answers agree; otherwise it fails with `UNAUTHORIZED_NOTFOUND_SESSION` when
the session captcha is absent, with `UNAUTHORIZED_CAPTCHA_EXPIRE` when the
stamp is absent or in the past, and with `UNAUTHORIZED_CAPTCHA_ERROR` when
the answers mismatch case-insensitively.  The clock is a real
`Date.now()` value, hence positive. -/
theorem verifyCaptcha_spec (now : Nat) (captcha : String) (s : SessionInfo)
    (hnow : 0 < now) :
    (AuthService.verifyCaptcha now captcha s = .ok () ↔
      ∃ c ts, s.captcha = some c ∧ c ≠ "" ∧ s.expirationTimestamp = some ts ∧
        now ≤ ts ∧ toLocaleLowerCase captcha = toLocaleLowerCase c) ∧
    (s.captcha = none →
      AuthService.verifyCaptcha now captcha s =
        .error (.unauthorized none .UNAUTHORIZED_NOTFOUND_SESSION
          "无法获取到Session信息!请确保请求携带cookie")) ∧
    (∀ c, s.captcha = some c → c ≠ "" →
      (s.expirationTimestamp = none ∨
        ∃ ts, s.expirationTimestamp = some ts ∧ ts < now) →
      AuthService.verifyCaptcha now captcha s =
        .error (.unauthorized none .UNAUTHORIZED_CAPTCHA_EXPIRE "验证码已过期!")) ∧
    (∀ c ts, s.captcha = some c → c ≠ "" → s.expirationTimestamp = some ts →
      now ≤ ts → toLocaleLowerCase captcha ≠ toLocaleLowerCase c →
      AuthService.verifyCaptcha now captcha s =
        .error (.unauthorized none .UNAUTHORIZED_CAPTCHA_ERROR "验证码输入有误!")) := by
  obtain ⟨oc, ots⟩ := s
  unfold AuthService.verifyCaptcha
  cases oc with
  | none => simp [truthyStr]
  | some c =>
    by_cases hc : c = ""
    · subst hc
      simp [truthyStr]
      exact fun c ts h1 h2 _ _ => absurd h1.symm h2
    · cases ots with
      | none => simp [truthyStr, truthyNat, hc]
      | some ts =>
        by_cases hlt : ts < now
        · simp [truthyStr, truthyNat, hc, hlt, Nat.not_le.mpr hlt]
        · have hts0 : ts ≠ 0 := by omega
          by_cases hm : toLocaleLowerCase captcha = toLocaleLowerCase c
          · simp [truthyStr, truthyNat, hc, hlt, hts0, hm, Nat.le_of_not_lt hlt]
          · simp [truthyStr, truthyNat, hc, hlt, hts0, hm, Nat.le_of_not_lt hlt]

/-- Witness for C2: the spec's own example, a case-insensitive match inside
the validity window. -/
theorem verifyCaptcha_spec_witness :
    AuthService.verifyCaptcha 1 "AB3D" ⟨some "aB3d", some 5⟩ = .ok () :=
  ((verifyCaptcha_spec 1 "AB3D" ⟨some "aB3d", some 5⟩ (by decide)).1).mpr
    ⟨"aB3d", 5, rfl, by decide, rfl, by decide, by decide⟩

/-- Claim C3: logout is best-effort.  `clearUserToken` never surfaces an
error to its caller, whatever the underlying cache delete does: on a client
failure it returns normally with the state untouched, and on success it has
deleted the registry entry for the pair. -/
theorem clearUserToken_best_effort (st : RedisState) (data : UserLogoutDto)
    (fail : Option CacheError) :
    (∃ r, AuthService.clearUserToken st data fail = .ok r) ∧
    (∀ e, AuthService.clearUserToken st data (some e) = .ok (st, 0)) ∧
    AuthService.clearUserToken st data none =
      .ok (st.filter
          (fun p => p.1 ≠ AuthService.redisTokenKeyStr data.id data.userName),
        (st.filter
          (fun p => p.1 = AuthService.redisTokenKeyStr data.id data.userName)).length) := by
  refine ⟨⟨_, rfl⟩, fun e => rfl, rfl⟩

/-- Claim C4: `refreshAccessToken` returns the freshly issued access token
and that very token is what a subsequent fetch finds in the cache under
`redisTokenKeyStr(id, userName)`; and whenever the cache write fails,
it fails with an `INTERNALSERVERERROR_REDIS` internal error wrapping the
underlying failure. -/
theorem refreshAccessToken_spec (cfg : Config) (st : RedisState) (now id : Nat)
    (userName : String) :
    (∃ stNew, AuthService.refreshAccessToken cfg st now id userName none =
        .ok (AuthService.generateAccessToken cfg now id userName, stNew) ∧
      AuthService.getRedisToken stNew id userName =
        some (AuthService.generateAccessToken cfg now id userName)) ∧
    (∀ e, AuthService.refreshAccessToken cfg st now id userName (some e) =
        .error (.internalServerError .INTERNALSERVERERROR_REDIS e)) := by
  constructor
  · refine ⟨_, rfl, ?_⟩
    simp [AuthService.getRedisToken, RedisService.getCache,
      AuthService.setTokenToRedis, RedisService.setCache, List.find?]
  · intro e
    rfl

/-- Claim C5: cross-kind rejection.  With distinct configured secrets, a
token issued by `generateRefreshToken` fails `verifyAccessToken` with code
`UNAUTHORIZED_ACCESS_TOKEN`, and a token issued by `generateAccessToken`
fails `verifyRefresToken` with code `UNAUTHORIZED_REFRESH_TOKEN`. -/
theorem cross_kind_rejection (cfg : Config) (idr ida : Nat) (userName : String)
    (t0 t1 now : Nat)
    (hsec : cfg.JWT_ACCESS_TOKEN_SECRET ≠ cfg.JWT_REFRESH_TOKEN_SECRET) :
    AuthService.verifyAccessToken cfg now
        (AuthService.generateRefreshToken cfg t0 idr) =
      .error (.unauthorized (some .invalidSignature) .UNAUTHORIZED_ACCESS_TOKEN
        "身份认证信息失效，请重新认证！") ∧
    AuthService.verifyRefresToken cfg now
        (AuthService.generateAccessToken cfg t1 ida userName) =
      .error (.unauthorized (some .invalidSignature) .UNAUTHORIZED_REFRESH_TOKEN
        "登录信息已过期，请重新登录！") := by
  constructor
  · unfold AuthService.verifyAccessToken
    rw [jwtVerify_badSecret _ cfg.JWT_ACCESS_TOKEN_SECRET now (fun hc => hsec hc.symm)]
  · unfold AuthService.verifyRefresToken
    rw [jwtVerify_badSecret _ cfg.JWT_REFRESH_TOKEN_SECRET now hsec]

/-- Witness for C5 at a concrete configuration with distinct secrets. -/
theorem cross_kind_rejection_witness :
    AuthService.verifyAccessToken ⟨"as", "rs", 100, 200⟩ 0
        (AuthService.generateRefreshToken ⟨"as", "rs", 100, 200⟩ 0 2) =
      .error (.unauthorized (some .invalidSignature) .UNAUTHORIZED_ACCESS_TOKEN
        "身份认证信息失效，请重新认证！") :=
  (cross_kind_rejection ⟨"as", "rs", 100, 200⟩ 2 3 "tom" 0 0 0 (by decide)).1

/-- Claim C6: revocation only removes the registry record.  After a
successful `clearUserToken` for `(id, userName)`, `getRedisToken` returns
`none`, while a previously issued, still-unexpired access token continues to
verify successfully. -/
theorem revoke_registry_only (cfg : Config) (st : RedisState) (id : Nat)
    (userName : String) (t0 now : Nat)
    (h : now < (AuthService.generateAccessToken cfg t0 id userName).exp) :
    (∀ r, AuthService.clearUserToken st ⟨id, userName⟩ none = .ok r →
      AuthService.getRedisToken r.1 id userName = none) ∧
    AuthService.verifyAccessToken cfg now
        (AuthService.generateAccessToken cfg t0 id userName) =
      .ok ⟨id, some userName⟩ := by
  constructor
  · intro r hr
    have hr' : (st.filter
        (fun p => p.1 ≠ AuthService.redisTokenKeyStr id userName),
        (st.filter
          (fun p => p.1 = AuthService.redisTokenKeyStr id userName)).length) = r :=
      Except.ok.inj hr
    rw [← hr']
    exact getCache_after_del st (AuthService.redisTokenKeyStr id userName)
  · unfold AuthService.verifyAccessToken
    rw [jwtVerify_ok _ cfg.JWT_ACCESS_TOKEN_SECRET now rfl h]
    rfl

/-- Witness for C6: a concrete state holding the token, revoked, fetched. -/
theorem revoke_registry_only_witness :
    AuthService.getRedisToken
        ((RedisService.clearCatch
          [(AuthService.redisTokenKeyStr 7 "ann",
            ⟨AuthService.generateAccessToken ⟨"sa", "sr", 60, 120⟩ 0 7 "ann", 60⟩)]
          (AuthService.redisTokenKeyStr 7 "ann") none)).1 7 "ann" = none :=
  (revoke_registry_only ⟨"sa", "sr", 60, 120⟩
      [(AuthService.redisTokenKeyStr 7 "ann",
        ⟨AuthService.generateAccessToken ⟨"sa", "sr", 60, 120⟩ 0 7 "ann", 60⟩)]
      7 "ann" 0 10 (by decide)).1 _ rfl

/-- Claim C7: store/fetch round-trip with last-write-wins, and the write uses
TTL `JWT_ACCESS_TOKEN_EXPIRES_IN`.  Storing a token and fetching it back for
the same pair yields the same token; a second store overwrites the first so a
subsequent fetch returns only the second token. -/
theorem store_fetch_roundtrip (cfg : Config) (st : RedisState) (id : Nat)
    (userName : String) (tok tok2 : SignedToken) :
    ∃ st1 st2,
      AuthService.setTokenToRedis cfg st
          (AuthService.redisTokenKeyStr id userName) tok none = .ok st1 ∧
      AuthService.getRedisToken st1 id userName = some tok ∧
      RedisService.getTTL st1 (AuthService.redisTokenKeyStr id userName) =
        some cfg.JWT_ACCESS_TOKEN_EXPIRES_IN ∧
      AuthService.setTokenToRedis cfg st1
          (AuthService.redisTokenKeyStr id userName) tok2 none = .ok st2 ∧
      AuthService.getRedisToken st2 id userName = some tok2 := by
  refine ⟨_, _, rfl, ?_, ?_, rfl, ?_⟩ <;>
    simp [AuthService.getRedisToken, RedisService.getCache, RedisService.getTTL,
      AuthService.setTokenToRedis, RedisService.setCache, List.find?]

/-- Claim C8: the cache key built by `redisTokenKeyStr` is exactly
`user_token:` followed by the decimal id, a hyphen, and the userName. -/
theorem redisTokenKeyStr_format (id : Nat) (userName : String) :
    AuthService.redisTokenKeyStr id userName =
      "user_token:" ++ toString id ++ "-" ++ userName :=
  redisTokenKeyStr_normal id userName

/-- Claim C9: a session whose captcha field is present but empty is rejected
by `verifyCaptcha` with the no-session error `UNAUTHORIZED_NOTFOUND_SESSION`,
regardless of the supplied answer and of the expiry stamp. -/
theorem verifyCaptcha_empty_challenge (now : Nat) (captcha : String)
    (ts : Option Nat) :
    AuthService.verifyCaptcha now captcha ⟨some "", ts⟩ =
      .error (.unauthorized none .UNAUTHORIZED_NOTFOUND_SESSION
        "无法获取到Session信息!请确保请求携带cookie") := rfl

/-- Claim C10: `redisTokenKeyStr` is injective on (id, userName) pairs: the
decimal rendering of the id contains no hyphen, so the first hyphen after the
prefix delimits it. -/
theorem redisTokenKeyStr_inj (id1 id2 : Nat) (n1 n2 : String)
    (h : AuthService.redisTokenKeyStr id1 n1 = AuthService.redisTokenKeyStr id2 n2) :
    id1 = id2 ∧ n1 = n2 := by
  rw [redisTokenKeyStr_normal, redisTokenKeyStr_normal] at h
  have hd := congrArg String.data h
  simp only [string_data_append, List.append_assoc] at hd
  have hd' := List.append_cancel_left hd
  rw [toString_nat_data, toString_nat_data] at hd'
  simp only [List.singleton_append] at hd'
  obtain ⟨hid, hname⟩ := sep_split '-' (natDigits id1) (natDigits id2) n1.data n2.data
    (natDigits_no_hyphen id1) (natDigits_no_hyphen id2) hd'
  refine ⟨natDigits_injective id1 id2 hid, ?_⟩
  cases n1
  cases n2
  exact congrArg String.mk hname

/-- Witness for C10 at a concrete pair of keys. -/
theorem redisTokenKeyStr_inj_witness : (37 : Nat) = 37 ∧ "pe-ng" = "pe-ng" :=
  redisTokenKeyStr_inj 37 37 "pe-ng" "pe-ng" rfl

end RePengBlog
